import Mathlib

/-!
Shallow embedding of `src/bot.py` (kanata-bot): a Telegram relay bot keeping a
bounded per-user conversation history and forwarding it to a chat-completion
HTTP API.  Python dict/list/str values flowing through the JSON paths are
embedded as `PyVal`; exceptions are embedded as `Except PyErr`.  The handlers
(`handle_text`, `handle_document`, `start_command`, `reset_command`,
`error_handler`) are embedded as pure state transformers over the global
`user_conversations` map.
-/

namespace KanataBot

/-- Roles appearing in the message dicts built by `bot.py`
(`"system"`, `"user"`, `"assistant"`). -/
inductive Role where
  | system
  | user
  | assistant
deriving DecidableEq

/-- Embedding of the Python/JSON values the bot's data paths manipulate.
Dicts are association lists with distinct keys (Python dicts cannot hold
duplicate keys); JSON floats do not occur on any path the handlers inspect
and are omitted. -/
inductive PyVal where
  | str (s : String)
  | int (n : Int)
  | bool (b : Bool)
  | list (xs : List PyVal)
  | dict (entries : List (String × PyVal))
  | none

/-- Python exception classes raised by the embedded operations. -/
inductive PyErr where
  | indexError
  | attributeError
  | keyError
  | typeError
  | unicodeDecodeError
deriving DecidableEq

/-- A chat message dict `{"role": r, "content": c}` as built in `bot.py`. -/
structure Message where
  role : Role
  content : PyVal

/-- First-match lookup in a dict's entry list (keys are distinct). -/
def lookup? (es : List (String × PyVal)) (k : String) : Option PyVal :=
  match es with
  | [] => Option.none
  | (k2, v) :: rest => if k2 = k then some v else lookup? rest k

/-- Python `v.get(key, default)`: dict lookup with default; `.get` on a
non-dict raises `AttributeError`. -/
def PyVal.get (v : PyVal) (k : String) (dflt : PyVal) : Except PyErr PyVal :=
  match v with
  | .dict es => .ok ((lookup? es k).getD dflt)
  | _ => .error .attributeError

/-- Python `v[i]` for a non-negative index: list indexing (IndexError when out
of bounds), string indexing (one-character string), `KeyError` on a dict
without that key, `TypeError` otherwise. -/
def PyVal.index (v : PyVal) (i : Nat) : Except PyErr PyVal :=
  match v with
  | .list xs =>
    match xs.get? i with
    | some x => .ok x
    | Option.none => .error .indexError
  | .str s => if i < s.length then .ok (.str ((s.drop i).take 1)) else .error .indexError
  | .dict _ => .error .keyError
  | _ => .error .typeError

/-- Python `key in v` for a string key: key membership for dicts, element
equality for lists, substring for strings, `TypeError` otherwise. -/
def PyVal.containsKey (v : PyVal) (k : String) : Except PyErr Bool :=
  match v with
  | .dict es => .ok (lookup? es k).isSome
  | .list xs => .ok (xs.any fun x => match x with | .str s => s == k | _ => false)
  | .str s => .ok ((List.range (s.length + 1)).any fun i => k.isPrefixOf (s.drop i))
  | _ => .error .typeError

/-- Python `v[key]` for a string key: dict item access (`KeyError` when the
key is absent), `TypeError` otherwise. -/
def PyVal.getItem (v : PyVal) (k : String) : Except PyErr PyVal :=
  match v with
  | .dict es =>
    match lookup? es k with
    | some x => .ok x
    | Option.none => .error .keyError
  | _ => .error .typeError

/-- Python truthiness of the embedded values. -/
def PyVal.truthy (v : PyVal) : Bool :=
  match v with
  | .str s => !s.isEmpty
  | .int n => n != 0
  | .bool b => b
  | .list xs => !xs.isEmpty
  | .dict es => !es.isEmpty
  | .none => false

/-- Python `str(v)` as used in the f-strings of `bot.py`.  Container
rendering is abstracted: on every path of `bot.py` that interpolates a value
into a reply, the value is a string. -/
def PyVal.toStr (v : PyVal) : String :=
  match v with
  | .str s => s
  | .int n => toString n
  | .bool b => cond b ("True") ("False")
  | .list _ => "<list>"
  | .dict _ => "<dict>"
  | .none => "None"

/-- The fixed system prompt installed by `start_command`, `reset_command` and
the lazy initialization in `handle_text`. -/
def SYSTEM_PROMPT : String := "Ты — дружелюбный и полезный ИИ-ассистент. Твое имя Kanata AI."

/-- `MAX_CONVERSATION_HISTORY = 10` from `bot.py`. -/
def MAX_CONVERSATION_HISTORY : Nat := 10

/-- `{"role": "system", "content": SYSTEM_PROMPT}`. -/
def systemMessage : Message := ⟨Role.system, PyVal.str SYSTEM_PROMPT⟩

/-- `{"role": "user", "content": text}`. -/
def mkUserMsg (text : String) : Message := ⟨Role.user, PyVal.str text⟩

/-- `{"role": "assistant", "content": c}`. -/
def mkAssistantMsg (c : PyVal) : Message := ⟨Role.assistant, c⟩

/-- Reply sent by `handle_text` when `F5AI_API_KEY` is falsy. -/
def CONFIG_ERROR_MSG : String := "F5AI API ключ не настроен."

/-- Reply sent by `handle_text` when the extracted content is falsy. -/
def EMPTY_REPLY_MSG : String := "Ответ пустой. Попробуй переформулировать запрос."

/-- Reply sent by `handle_document` for a non-`text/plain` upload. -/
def DOC_REJECT_MSG : String := "Пожалуйста, отправь обычный текстовый файл (.txt)."

/-- Progress reply sent by `handle_document` for an accepted upload. -/
def DOC_RECEIVED_MSG : String := "Файл получен! Обрабатываю его содержимое..."

/-- Reply sent by `reset_command`. -/
def RESET_MSG : String := "История диалога сброшена! Можешь начать заново~"

/-- Reply sent by `error_handler` for an uncaught exception. -/
def GENERIC_ERROR_MSG : String := "Произошла ошибка. Попробуй снова позже."

/-- Python `if not F5AI_API_KEY`: the key is configured iff it is set and
non-empty. -/
def keyConfigured (k : Option String) : Bool :=
  match k with
  | some s => !s.isEmpty
  | Option.none => false

/-- Resolution of the single `requests.post` performed by `call_f5ai_api`,
from the embedded program's point of view an external input:
`requestException` covers `requests.exceptions.RequestException` (timeouts,
connection errors, and the non-2xx statuses surfaced by `raise_for_status`),
`otherException` the remaining `except Exception` arm, and `success body`
a 2xx response whose `.json()` parses to `body`. -/
inductive HttpOutcome where
  | requestException (detail : String)
  | otherException (detail : String)
  | success (body : PyVal)

/-- `call_f5ai_api(messages, ...)`: with no (or empty) key returns the
`{"error": "F5AI_API_KEY is not configured."}` dict without any network I/O;
otherwise returns the error dict corresponding to the raised exception, or
the parsed 2xx JSON body unvalidated.  The `messages` argument only feeds the
request payload and the log line, so it does not affect the returned value. -/
def call_f5ai_api (apiKey : Option String) (_messages : List Message)
    (outcome : HttpOutcome) : PyVal :=
  if keyConfigured apiKey = false then
    .dict [(("error"), .str ("F5AI_API_KEY is not configured."))]
  else
    match outcome with
    | .requestException d => .dict [(("error"), .str (("Ошибка запроса: ") ++ d))]
    | .otherException d => .dict [(("error"), .str (("Непредвиденная ошибка: ") ++ d))]
    | .success body => body

/-- Line 117 of `bot.py`:
`api_response.get("choices", [{}])[0].get("message", {}).get("content", "")`. -/
def extractContent (api_response : PyVal) : Except PyErr PyVal :=
  match api_response.get ("choices") (.list [.dict []]) with
  | .error e => .error e
  | .ok choices =>
    match choices.index 0 with
    | .error e => .error e
    | .ok c0 =>
      match c0.get ("message") (.dict []) with
      | .error e => .error e
      | .ok msg => msg.get ("content") (.str (""))

/-- The global `user_conversations` dict: per-user optional history. -/
def Conversations : Type := Nat → Option (List Message)

/-- `user_conversations[uid] = h`. -/
def updateConv (c : Conversations) (uid : Nat) (h : List Message) : Conversations :=
  fun u => if u = uid then some h else c u

/-- The empty `user_conversations = {}` at process start. -/
def noConvs : Conversations := fun _ => Option.none

/-- Observable outcome of handling one inbound event: the resulting
`user_conversations` map, the message list passed to `call_f5ai_api` if that
call happened (`Option.none` = zero upstream calls), the `reply_text`
payloads sent in order, and the exception escaping the handler, if any. -/
structure EventOut where
  convs : Conversations
  reqMessages : Option (List Message)
  replies : List String
  exn : Option PyErr

/-- Lines 106–108 of `bot.py`: append `{"role": "user", "content": text}`,
then, if the length exceeds `MAX_CONVERSATION_HISTORY + 1`, keep
`[history[0]] + history[-MAX_CONVERSATION_HISTORY:]`. -/
def appendUserTrimmed (h : List Message) (text : String) : List Message :=
  if (h ++ [mkUserMsg text]).length > MAX_CONVERSATION_HISTORY + 1 then
    (h ++ [mkUserMsg text]).take 1
      ++ (h ++ [mkUserMsg text]).drop ((h ++ [mkUserMsg text]).length - MAX_CONVERSATION_HISTORY)
  else h ++ [mkUserMsg text]

/-- Lines 113–122 of `bot.py`: branch on `"error" in api_response`, reply
with the error, or extract the content and either reply-and-append or send
the empty-reply message.  `convs1` is the map after the user append, `h2`
that user's current history. -/
def handleApiResponse (convs1 : Conversations) (uid : Nat) (h2 : List Message)
    (api_response : PyVal) : EventOut :=
  match api_response.containsKey ("error") with
  | .error e => { convs := convs1, reqMessages := some h2, replies := [], exn := some e }
  | .ok true =>
    match api_response.getItem ("error") with
    | .error e => { convs := convs1, reqMessages := some h2, replies := [], exn := some e }
    | .ok v =>
      { convs := convs1, reqMessages := some h2,
        replies := [("Ошибка: ") ++ v.toStr], exn := Option.none }
  | .ok false =>
    match extractContent api_response with
    | .error e => { convs := convs1, reqMessages := some h2, replies := [], exn := some e }
    | .ok content =>
      if content.truthy then
        { convs := updateConv convs1 uid (h2 ++ [mkAssistantMsg content]),
          reqMessages := some h2, replies := [content.toStr], exn := Option.none }
      else
        { convs := convs1, reqMessages := some h2,
          replies := [EMPTY_REPLY_MSG], exn := Option.none }

/-- `handle_text(update, context)` for sender `uid` and body `text`:
config-check, lazy initialization, user append with trim, upstream call,
then the response branch of `handleApiResponse`. -/
def handle_text (apiKey : Option String) (outcome : HttpOutcome)
    (convs : Conversations) (uid : Nat) (text : String) : EventOut :=
  if keyConfigured apiKey = false then
    { convs := convs, reqMessages := Option.none,
      replies := [CONFIG_ERROR_MSG], exn := Option.none }
  else
    handleApiResponse
      (updateConv convs uid (appendUserTrimmed ((convs uid).getD [systemMessage]) text))
      uid
      (appendUserTrimmed ((convs uid).getD [systemMessage]) text)
      (call_f5ai_api apiKey (appendUserTrimmed ((convs uid).getD [systemMessage]) text) outcome)

/-- A document-upload event: the declared MIME type and the result of
decoding the downloaded bytes as UTF-8 (an external input to the handler). -/
structure DocEvent where
  mime_type : String
  decoded : Except PyErr String

/-- `handle_document(update, context)`: rejects non-`text/plain` uploads,
propagates a decode failure, and otherwise replies with the progress message
and hands the decoded text to `handle_text`. -/
def handle_document (apiKey : Option String) (outcome : HttpOutcome)
    (convs : Conversations) (uid : Nat) (ev : DocEvent) : EventOut :=
  if ev.mime_type ≠ ("text/plain") then
    { convs := convs, reqMessages := Option.none,
      replies := [DOC_REJECT_MSG], exn := Option.none }
  else
    match ev.decoded with
    | .error e =>
      { convs := convs, reqMessages := Option.none, replies := [], exn := some e }
    | .ok content =>
      let o := handle_text apiKey outcome convs uid content
      { o with replies := DOC_RECEIVED_MSG :: o.replies }

/-- `start_command`: overwrite the sender's history with the single system
message and greet. -/
def start_command (convs : Conversations) (uid : Nat) (mention : String) : EventOut :=
  { convs := updateConv convs uid [systemMessage], reqMessages := Option.none,
    replies := [("Привет, ") ++ mention ++ ("! Я — Kanata AI 🤖✨\\n\n") ++
      ("Просто напиши мне сообщение, и я постараюсь помочь.\n") ++
      ("Команды:\n") ++ ("/help — помощь\n") ++ ("/reset — сбросить историю")],
    exn := Option.none }

/-- `reset_command`: overwrite the sender's history with the single system
message and confirm. -/
def reset_command (convs : Conversations) (uid : Nat) : EventOut :=
  { convs := updateConv convs uid [systemMessage], reqMessages := Option.none,
    replies := [RESET_MSG], exn := Option.none }

/-- `error_handler` at the application boundary: when an exception escaped
the handler, append the generic apology reply (the update carries a message
for the events modelled here). -/
def runWithErrorHandler (o : EventOut) : EventOut :=
  match o.exn with
  | some _ => { o with replies := o.replies ++ [GENERIC_ERROR_MSG] }
  | Option.none => o

/-- All `user_conversations` states reachable from process start through the
registered handlers. -/
inductive Reachable : Conversations → Prop where
  | init : Reachable noConvs
  | start (c : Conversations) (uid : Nat) (mention : String) : Reachable c →
      Reachable (start_command c uid mention).convs
  | reset (c : Conversations) (uid : Nat) : Reachable c →
      Reachable (reset_command c uid).convs
  | text (c : Conversations) (apiKey : Option String) (outcome : HttpOutcome)
      (uid : Nat) (t : String) : Reachable c →
      Reachable (handle_text apiKey outcome c uid t).convs
  | doc (c : Conversations) (apiKey : Option String) (outcome : HttpOutcome)
      (uid : Nat) (ev : DocEvent) : Reachable c →
      Reachable (handle_document apiKey outcome c uid ev).convs

/-! ### Helper lemmas -/

lemma head?_append_of_head? {α : Type} (l l2 : List α) (a : α) (hh : l.head? = some a) :
    (l ++ l2).head? = some a := by
  cases l with
  | nil => simp at hh
  | cons b tl => simpa using hh

lemma updateConv_self (c : Conversations) (uid : Nat) (h : List Message) :
    updateConv c uid h uid = some h := by
  simp [updateConv]

lemma updateConv_other (c : Conversations) (uid : Nat) (h : List Message) (u : Nat)
    (hu : u ≠ uid) : updateConv c uid h u = c u := by
  simp [updateConv, hu]

lemma appendUserTrimmed_length_le (h : List Message) (t : String) :
    (appendUserTrimmed h t).length ≤ MAX_CONVERSATION_HISTORY + 1 := by
  unfold appendUserTrimmed MAX_CONVERSATION_HISTORY
  split
  · simp only [List.length_append, List.length_take, List.length_drop]
    omega
  · rename_i hle
    omega

lemma appendUserTrimmed_head (h : List Message) (t : String) (a : Message)
    (hh : h.head? = some a) : (appendUserTrimmed h t).head? = some a := by
  cases h with
  | nil => simp at hh
  | cons b tl =>
    simp only [List.head?_cons, Option.some.injEq] at hh
    subst hh
    unfold appendUserTrimmed
    split
    · simp
    · simp

lemma handleApiResponse_convs (c1 : Conversations) (uid : Nat) (h2 : List Message)
    (r : PyVal) :
    (handleApiResponse c1 uid h2 r).convs = c1 ∨
      ∃ a, (handleApiResponse c1 uid h2 r).convs = updateConv c1 uid (h2 ++ [mkAssistantMsg a]) := by
  unfold handleApiResponse
  repeat' split
  all_goals first
    | exact Or.inl rfl
    | exact Or.inr ⟨_, rfl⟩

lemma handle_text_convs_apply (apiKey : Option String) (outcome : HttpOutcome)
    (c : Conversations) (uid : Nat) (t : String) (u : Nat) :
    (handle_text apiKey outcome c uid t).convs u = c u ∨
      (handle_text apiKey outcome c uid t).convs u
        = some (appendUserTrimmed ((c uid).getD [systemMessage]) t) ∨
      ∃ a, (handle_text apiKey outcome c uid t).convs u
        = some (appendUserTrimmed ((c uid).getD [systemMessage]) t ++ [mkAssistantMsg a]) := by
  unfold handle_text
  split
  · exact Or.inl rfl
  · rcases handleApiResponse_convs
      (updateConv c uid (appendUserTrimmed ((c uid).getD [systemMessage]) t)) uid
      (appendUserTrimmed ((c uid).getD [systemMessage]) t)
      (call_f5ai_api apiKey (appendUserTrimmed ((c uid).getD [systemMessage]) t) outcome)
      with hc | ⟨a, hc⟩
    · rw [hc]
      by_cases hu : u = uid
      · subst hu
        rw [updateConv_self]
        exact Or.inr (Or.inl rfl)
      · rw [updateConv_other _ _ _ _ hu]
        exact Or.inl rfl
    · rw [hc]
      by_cases hu : u = uid
      · subst hu
        rw [updateConv_self]
        exact Or.inr (Or.inr ⟨a, rfl⟩)
      · rw [updateConv_other _ _ _ _ hu, updateConv_other _ _ _ _ hu]
        exact Or.inl rfl

lemma handle_document_convs (apiKey : Option String) (outcome : HttpOutcome)
    (c : Conversations) (uid : Nat) (ev : DocEvent) :
    (handle_document apiKey outcome c uid ev).convs = c ∨
      ∃ t, (handle_document apiKey outcome c uid ev).convs
        = (handle_text apiKey outcome c uid t).convs := by
  unfold handle_document
  split
  · exact Or.inl rfl
  · split
    · exact Or.inl rfl
    · exact Or.inr ⟨_, rfl⟩

/-- The invariant maintained on every stored history: it starts with the
system message and its length never exceeds `MAX_CONVERSATION_HISTORY + 2`. -/
def GoodState (c : Conversations) : Prop :=
  ∀ u h, c u = some h →
    h.head? = some systemMessage ∧ h.length ≤ MAX_CONVERSATION_HISTORY + 2

lemma goodState_update_system (c : Conversations) (uid : Nat) (hc : GoodState c) :
    GoodState (updateConv c uid [systemMessage]) := by
  intro u h hh
  by_cases hu : u = uid
  · subst hu
    rw [updateConv_self] at hh
    injection hh with hh
    subst hh
    exact ⟨rfl, by simp [MAX_CONVERSATION_HISTORY]⟩
  · exact hc u h ((updateConv_other c uid _ u hu) ▸ hh)

lemma goodState_handle_text (apiKey : Option String) (outcome : HttpOutcome)
    (c : Conversations) (uid : Nat) (t : String) (hc : GoodState c) :
    GoodState ((handle_text apiKey outcome c uid t).convs) := by
  intro u h hh
  have hbase : ((c uid).getD [systemMessage]).head? = some systemMessage := by
    cases hcu : c uid with
    | none => simp
    | some h0 => simpa using (hc uid h0 hcu).1
  rcases handle_text_convs_apply apiKey outcome c uid t u with hcase | hcase | ⟨a, hcase⟩
  · exact hc u h (hcase ▸ hh)
  · rw [hcase] at hh
    injection hh with hh
    subst hh
    refine ⟨appendUserTrimmed_head _ _ _ hbase, ?_⟩
    calc (appendUserTrimmed ((c uid).getD [systemMessage]) t).length
        ≤ MAX_CONVERSATION_HISTORY + 1 := appendUserTrimmed_length_le _ _
      _ ≤ MAX_CONVERSATION_HISTORY + 2 := by omega
  · rw [hcase] at hh
    injection hh with hh
    subst hh
    refine ⟨head?_append_of_head? _ _ _ (appendUserTrimmed_head _ _ _ hbase), ?_⟩
    have := appendUserTrimmed_length_le ((c uid).getD [systemMessage]) t
    simp only [List.length_append, List.length_cons, List.length_nil]
    omega

lemma reachable_goodState (c : Conversations) (hr : Reachable c) : GoodState c := by
  induction hr with
  | init => intro u h hh; simp [noConvs] at hh
  | start c uid mention _ ih => exact goodState_update_system c uid ih
  | reset c uid _ ih => exact goodState_update_system c uid ih
  | text c apiKey outcome uid t _ ih => exact goodState_handle_text apiKey outcome c uid t ih
  | doc c apiKey outcome uid ev _ ih =>
    rcases handle_document_convs apiKey outcome c uid ev with hcase | ⟨t, hcase⟩
    · rw [hcase]; exact ih
    · rw [hcase]; exact goodState_handle_text apiKey outcome c uid t ih

lemma string_ne_append (a b d : String) (i : Nat) (hi : i < b.data.length)
    (hne : a.data[i]? ≠ b.data[i]?) : a ≠ b ++ d := by
  intro h
  apply hne
  have h2 := congrArg String.data h
  rw [String.data_append] at h2
  rw [h2, List.getElem?_append_left hi]

/-- A well-formed 2xx completion envelope
`{"choices": [{"message": {"content": s}}]}`. -/
def okEnvelope (s : String) : PyVal :=
  .dict [(("choices"), .list [.dict [(("message"), .dict [(("content"), .str s)])]])]

/-- One text-message event from user 1 with a configured key and a successful
completion `"ok"` (used for concrete runs). -/
def okTextStep (c : Conversations) : Conversations :=
  (handle_text (some ("k")) (HttpOutcome.success (okEnvelope ("ok"))) c 1 ("hi")).convs

/-- Twelve sequential successful text messages from user 1, starting from the
empty process-start state. -/
def twelveMessagesState : Conversations :=
  okTextStep (okTextStep (okTextStep (okTextStep (okTextStep (okTextStep
    (okTextStep (okTextStep (okTextStep (okTextStep (okTextStep (okTextStep
      noConvs)))))))))))

/-- C1 (counterexample): the claim "after every mutation the length of the
history is at most MAX_HISTORY + 1 (11); after the user's 12th text message
the history never holds more than 11 entries" is false on the code: after
twelve sequential successfully-answered text messages the stored history
holds `MAX_CONVERSATION_HISTORY + 2 = 12` entries, because the assistant
append performed after the trim can push the length one past the bound. -/
theorem claim_C1_counterexample :
    (twelveMessagesState 1).map List.length = some (MAX_CONVERSATION_HISTORY + 2)
      ∧ MAX_CONVERSATION_HISTORY + 2 > MAX_CONVERSATION_HISTORY + 1 := by
  exact ⟨by rfl, by decide⟩

/-- C1 (amended): after every mutation of a user's conversation history
(user append with trim, assistant append, reset, or initialization), the
length of the stored history is at most `MAX_CONVERSATION_HISTORY + 2 = 12`:
the trim applied on user appends bounds the history by 11, and the
subsequent assistant append can raise it to at most 12. -/
theorem history_length_bounded (c : Conversations) (uid : Nat) (h : List Message)
    (hr : Reachable c) (hh : c uid = some h) :
    h.length ≤ MAX_CONVERSATION_HISTORY + 2 :=
  (reachable_goodState c hr uid h hh).2

/-- C1 (witness): the amended bound evaluated on a concrete reachable state
(one reset event for user 5). -/
theorem history_length_bounded_witness :
    (reset_command noConvs 5).convs 5 = some [systemMessage]
      ∧ ([systemMessage] : List Message).length ≤ MAX_CONVERSATION_HISTORY + 2 :=
  ⟨rfl, history_length_bounded _ 5 _ (Reachable.reset noConvs 5 Reachable.init) rfl⟩

/-- C3: from the first initialization of a user's conversation state onward,
after every operation the element at index 0 of the stored history exists
and has role `system` (it is in fact always the fixed system message). -/
theorem history_head_is_system (c : Conversations) (uid : Nat) (h : List Message)
    (hr : Reachable c) (hh : c uid = some h) :
    ∃ m, h.head? = some m ∧ m.role = Role.system :=
  ⟨systemMessage, (reachable_goodState c hr uid h hh).1, rfl⟩

/-- C3 (witness): the invariant evaluated on a concrete reachable state
(one `/start` event for user 2). -/
theorem history_head_is_system_witness :
    (start_command noConvs 2 ("u")).convs 2 = some [systemMessage]
      ∧ ∃ m, ([systemMessage] : List Message).head? = some m ∧ m.role = Role.system :=
  ⟨rfl, history_head_is_system _ 2 _ (Reachable.start noConvs 2 ("u") Reachable.init) rfl⟩

/-- C2: when the history exceeds `MAX_CONVERSATION_HISTORY + 1` immediately
after a user-role append, the trim replaces it by `[history[0]]` concatenated
with the last `MAX_CONVERSATION_HISTORY` entries: the head is retained, the
result has exactly `MAX_CONVERSATION_HISTORY + 1` entries, and it is a
sublist of the untrimmed history (nothing is reordered; only the oldest
non-system entries are discarded). -/
theorem trim_keeps_system_and_last_max (h : List Message) (t : String)
    (hgt : (h ++ [mkUserMsg t]).length > MAX_CONVERSATION_HISTORY + 1) :
    appendUserTrimmed h t
      = (h ++ [mkUserMsg t]).take 1
        ++ (h ++ [mkUserMsg t]).drop ((h ++ [mkUserMsg t]).length - MAX_CONVERSATION_HISTORY)
    ∧ (appendUserTrimmed h t).head? = (h ++ [mkUserMsg t]).head?
    ∧ (appendUserTrimmed h t).length = MAX_CONVERSATION_HISTORY + 1
    ∧ (appendUserTrimmed h t).Sublist (h ++ [mkUserMsg t]) := by
  have hM : MAX_CONVERSATION_HISTORY = 10 := rfl
  have heq : appendUserTrimmed h t
      = (h ++ [mkUserMsg t]).take 1
        ++ (h ++ [mkUserMsg t]).drop ((h ++ [mkUserMsg t]).length - MAX_CONVERSATION_HISTORY) := by
    unfold appendUserTrimmed
    rw [if_pos hgt]
  have hlen : ((h ++ [mkUserMsg t]).length) > 11 := by rw [hM] at hgt; omega
  refine ⟨heq, ?_, ?_, ?_⟩
  · rw [heq]
    cases hl : h ++ [mkUserMsg t] with
    | nil => rw [hl] at hlen; simp at hlen
    | cons x xs => simp
  · rw [heq]
    rw [hM] at hgt ⊢
    simp only [List.length_append, List.length_take, List.length_drop,
      List.length_singleton] at hgt ⊢
    omega
  · rw [heq]
    have h1 : (1 : Nat) ≤ (h ++ [mkUserMsg t]).length - MAX_CONVERSATION_HISTORY := by
      rw [hM]; omega
    have htk : (h ++ [mkUserMsg t]).take 1
        = (((h ++ [mkUserMsg t]).take ((h ++ [mkUserMsg t]).length - MAX_CONVERSATION_HISTORY)).take 1) := by
      rw [List.take_take, Nat.min_eq_left h1]
    have hsub : ((h ++ [mkUserMsg t]).take 1
          ++ (h ++ [mkUserMsg t]).drop ((h ++ [mkUserMsg t]).length - MAX_CONVERSATION_HISTORY)).Sublist
        ((h ++ [mkUserMsg t]).take ((h ++ [mkUserMsg t]).length - MAX_CONVERSATION_HISTORY)
          ++ (h ++ [mkUserMsg t]).drop ((h ++ [mkUserMsg t]).length - MAX_CONVERSATION_HISTORY)) := by
      refine List.Sublist.append ?_ (List.Sublist.refl _)
      rw [htk]
      exact List.take_sublist _ _
    rwa [List.take_append_drop] at hsub

/-- C2 (witness): the trim theorem evaluated on a concrete 11-entry history
plus one appended user message. -/
theorem trim_keeps_system_and_last_max_witness :
    (List.replicate 11 systemMessage ++ [mkUserMsg ("x")]).length > MAX_CONVERSATION_HISTORY + 1
    ∧ (appendUserTrimmed (List.replicate 11 systemMessage) ("x")
        = (List.replicate 11 systemMessage ++ [mkUserMsg ("x")]).take 1
          ++ (List.replicate 11 systemMessage ++ [mkUserMsg ("x")]).drop
            ((List.replicate 11 systemMessage ++ [mkUserMsg ("x")]).length - MAX_CONVERSATION_HISTORY)
      ∧ (appendUserTrimmed (List.replicate 11 systemMessage) ("x")).head?
          = (List.replicate 11 systemMessage ++ [mkUserMsg ("x")]).head?
      ∧ (appendUserTrimmed (List.replicate 11 systemMessage) ("x")).length
          = MAX_CONVERSATION_HISTORY + 1
      ∧ (appendUserTrimmed (List.replicate 11 systemMessage) ("x")).Sublist
          (List.replicate 11 systemMessage ++ [mkUserMsg ("x")])) :=
  ⟨by decide, trim_keeps_system_and_last_max (List.replicate 11 systemMessage) ("x") (by decide)⟩

/-- C7: with the API credential unset (or empty), a text-message event
replies with exactly the fixed configuration-error message, performs no
upstream call, leaves every user's history untouched, and raises nothing. -/
theorem unconfigured_key_no_upstream_call (apiKey : Option String) (outcome : HttpOutcome)
    (c : Conversations) (uid : Nat) (t : String) (hk : keyConfigured apiKey = false) :
    (handle_text apiKey outcome c uid t).replies = [CONFIG_ERROR_MSG]
    ∧ (handle_text apiKey outcome c uid t).reqMessages = Option.none
    ∧ (handle_text apiKey outcome c uid t).convs = c
    ∧ (handle_text apiKey outcome c uid t).exn = Option.none := by
  unfold handle_text
  rw [if_pos hk]
  exact ⟨rfl, rfl, rfl, rfl⟩

/-- C7 (witness): the theorem evaluated with an absent key and a pending
network failure that is never reached. -/
theorem unconfigured_key_no_upstream_call_witness :
    keyConfigured Option.none = false
    ∧ ((handle_text Option.none (HttpOutcome.requestException ("boom")) noConvs 7 ("hi")).replies
          = [CONFIG_ERROR_MSG]
      ∧ (handle_text Option.none (HttpOutcome.requestException ("boom")) noConvs 7 ("hi")).reqMessages
          = Option.none
      ∧ (handle_text Option.none (HttpOutcome.requestException ("boom")) noConvs 7 ("hi")).convs
          = noConvs
      ∧ (handle_text Option.none (HttpOutcome.requestException ("boom")) noConvs 7 ("hi")).exn
          = Option.none) :=
  ⟨rfl, unconfigured_key_no_upstream_call Option.none (HttpOutcome.requestException ("boom"))
    noConvs 7 ("hi") rfl⟩

/-- C8: a document upload whose declared MIME type is not `text/plain`
replies with exactly the rejection message, never calls the upstream client,
leaves the conversation store untouched, and raises nothing. -/
theorem non_text_upload_rejected (apiKey : Option String) (outcome : HttpOutcome)
    (c : Conversations) (uid : Nat) (ev : DocEvent)
    (hm : ev.mime_type ≠ ("text/plain")) :
    (handle_document apiKey outcome c uid ev).replies = [DOC_REJECT_MSG]
    ∧ (handle_document apiKey outcome c uid ev).reqMessages = Option.none
    ∧ (handle_document apiKey outcome c uid ev).convs = c
    ∧ (handle_document apiKey outcome c uid ev).exn = Option.none := by
  unfold handle_document
  rw [if_pos hm]
  exact ⟨rfl, rfl, rfl, rfl⟩

/-- C8 (witness): the theorem evaluated on an `application/pdf` upload with a
configured key and an upstream outcome that is never consulted. -/
theorem non_text_upload_rejected_witness :
    (DocEvent.mk ("application/pdf") (Except.ok ("x"))).mime_type ≠ ("text/plain")
    ∧ ((handle_document (some ("k")) (HttpOutcome.success (okEnvelope ("ok"))) noConvs 3
          (DocEvent.mk ("application/pdf") (Except.ok ("x")))).replies = [DOC_REJECT_MSG]
      ∧ (handle_document (some ("k")) (HttpOutcome.success (okEnvelope ("ok"))) noConvs 3
          (DocEvent.mk ("application/pdf") (Except.ok ("x")))).reqMessages = Option.none
      ∧ (handle_document (some ("k")) (HttpOutcome.success (okEnvelope ("ok"))) noConvs 3
          (DocEvent.mk ("application/pdf") (Except.ok ("x")))).convs = noConvs
      ∧ (handle_document (some ("k")) (HttpOutcome.success (okEnvelope ("ok"))) noConvs 3
          (DocEvent.mk ("application/pdf") (Except.ok ("x")))).exn = Option.none) :=
  ⟨by decide, non_text_upload_rejected (some ("k")) (HttpOutcome.success (okEnvelope ("ok")))
    noConvs 3 (DocEvent.mk ("application/pdf") (Except.ok ("x"))) (by decide)⟩

/-- C5: when the upstream call fails (a raised request exception such as a
timeout, or any other exception in the call), the user's stored history
after the event equals the history passed to the upstream call (the history
immediately before the call, user message included): no assistant content is
appended; the single reply is an error message carrying the diagnostic
detail, and no exception escapes. -/
theorem failed_upstream_preserves_history (apiKey : Option String) (outcome : HttpOutcome)
    (c : Conversations) (uid : Nat) (t : String) (d : String)
    (hk : keyConfigured apiKey = true)
    (ho : outcome = HttpOutcome.requestException d ∨ outcome = HttpOutcome.otherException d) :
    (handle_text apiKey outcome c uid t).reqMessages
        = some (appendUserTrimmed ((c uid).getD [systemMessage]) t)
    ∧ (handle_text apiKey outcome c uid t).convs uid
        = some (appendUserTrimmed ((c uid).getD [systemMessage]) t)
    ∧ (∃ p, (handle_text apiKey outcome c uid t).replies = [p ++ d])
    ∧ (handle_text apiKey outcome c uid t).exn = Option.none := by
  have hk' : ¬ (keyConfigured apiKey = false) := by simp [hk]
  rcases ho with h | h
  · subst h
    unfold handle_text
    rw [if_neg hk']
    unfold call_f5ai_api
    rw [if_neg hk']
    refine ⟨rfl, ?_, ⟨("Ошибка: ") ++ ("Ошибка запроса: "), ?_⟩, rfl⟩
    · exact updateConv_self c uid _
    · show [("Ошибка: ") ++ (("Ошибка запроса: ") ++ d)] = _
      rw [String.append_assoc]
  · subst h
    unfold handle_text
    rw [if_neg hk']
    unfold call_f5ai_api
    rw [if_neg hk']
    refine ⟨rfl, ?_, ⟨("Ошибка: ") ++ ("Непредвиденная ошибка: "), ?_⟩, rfl⟩
    · exact updateConv_self c uid _
    · show [("Ошибка: ") ++ (("Непредвиденная ошибка: ") ++ d)] = _
      rw [String.append_assoc]

/-- C5 (witness): the theorem evaluated on a concrete timeout for user 4
starting from the empty store. -/
theorem failed_upstream_preserves_history_witness :
    keyConfigured (some ("k")) = true
    ∧ ((handle_text (some ("k")) (HttpOutcome.requestException ("timeout")) noConvs 4 ("hi")).reqMessages
        = some (appendUserTrimmed ((noConvs 4).getD [systemMessage]) ("hi"))
      ∧ (handle_text (some ("k")) (HttpOutcome.requestException ("timeout")) noConvs 4 ("hi")).convs 4
        = some (appendUserTrimmed ((noConvs 4).getD [systemMessage]) ("hi"))
      ∧ (∃ p, (handle_text (some ("k")) (HttpOutcome.requestException ("timeout")) noConvs 4 ("hi")).replies
        = [p ++ ("timeout")])
      ∧ (handle_text (some ("k")) (HttpOutcome.requestException ("timeout")) noConvs 4 ("hi")).exn
        = Option.none) :=
  ⟨rfl, failed_upstream_preserves_history (some ("k")) (HttpOutcome.requestException ("timeout"))
    noConvs 4 ("hi") ("timeout") rfl (Or.inl rfl)⟩

/-- C6: a successful upstream call whose extracted content is the empty
string replies with exactly the "try rephrasing" message, appends no
assistant message (the stored history stays the trimmed history with the
user message), raises nothing, and that reply is distinct from every error
reply (the `Ошибка:`-prefixed upstream-failure replies, the
configuration-error reply, and the generic apology). -/
theorem empty_completion_rephrase_reply (apiKey : Option String)
    (c : Conversations) (uid : Nat) (t : String) (hk : keyConfigured apiKey = true) :
    (handle_text apiKey (HttpOutcome.success (okEnvelope (""))) c uid t).replies
        = [EMPTY_REPLY_MSG]
    ∧ (handle_text apiKey (HttpOutcome.success (okEnvelope (""))) c uid t).convs uid
        = some (appendUserTrimmed ((c uid).getD [systemMessage]) t)
    ∧ (handle_text apiKey (HttpOutcome.success (okEnvelope (""))) c uid t).exn = Option.none
    ∧ (∀ d, EMPTY_REPLY_MSG ≠ ("Ошибка: ") ++ d)
    ∧ EMPTY_REPLY_MSG ≠ CONFIG_ERROR_MSG
    ∧ EMPTY_REPLY_MSG ≠ GENERIC_ERROR_MSG := by
  have hk' : ¬ (keyConfigured apiKey = false) := by simp [hk]
  unfold handle_text
  rw [if_neg hk']
  unfold call_f5ai_api
  rw [if_neg hk']
  refine ⟨rfl, updateConv_self c uid _, rfl, ?_, by decide, by decide⟩
  intro d
  exact string_ne_append EMPTY_REPLY_MSG ("Ошибка: ") d 1 (by decide) (by decide)

/-- C6 (witness): the theorem evaluated for user 6 on the empty-string
completion with a configured key. -/
theorem empty_completion_rephrase_reply_witness :
    keyConfigured (some ("k")) = true
    ∧ (handle_text (some ("k")) (HttpOutcome.success (okEnvelope (""))) noConvs 6 ("hi")).replies
        = [EMPTY_REPLY_MSG]
    ∧ (handle_text (some ("k")) (HttpOutcome.success (okEnvelope (""))) noConvs 6 ("hi")).convs 6
        = some (appendUserTrimmed ((noConvs 6).getD [systemMessage]) ("hi"))
    ∧ EMPTY_REPLY_MSG ≠ ("Ошибка: ") ++ ("Ошибка запроса: boom") :=
  ⟨rfl,
    (empty_completion_rephrase_reply (some ("k")) noConvs 6 ("hi") rfl).1,
    (empty_completion_rephrase_reply (some ("k")) noConvs 6 ("hi") rfl).2.1,
    (empty_completion_rephrase_reply (some ("k")) noConvs 6 ("hi") rfl).2.2.2.1
      (("Ошибка запроса: boom"))⟩

/-- A 2xx success envelope with expected fields missing at one of the three
levels the extraction chain defaults: no `choices` key, or a first choice
without `message`, or a message without `content`. -/
def missingFieldsEnvelope (es : List (String × PyVal)) : Prop :=
  lookup? es ("choices") = Option.none
  ∨ ∃ es0 rest, lookup? es ("choices") = some (.list (.dict es0 :: rest))
      ∧ (lookup? es0 ("message") = Option.none
        ∨ ∃ es1, lookup? es0 ("message") = some (.dict es1)
            ∧ lookup? es1 ("content") = Option.none)

lemma extractContent_missing_fields (es : List (String × PyVal))
    (hm : missingFieldsEnvelope es) : extractContent (.dict es) = .ok (.str ("")) := by
  rcases hm with hnone | ⟨es0, rest, hch, hmsg⟩
  · simp [extractContent, PyVal.get, PyVal.index, lookup?, hnone]
  · rcases hmsg with hmn | ⟨es1, hms, hcn⟩
    · simp [extractContent, PyVal.get, PyVal.index, lookup?, hch, hmn]
    · simp [extractContent, PyVal.get, PyVal.index, lookup?, hch, hms, hcn]

lemma handleApiResponse_no_error_empty (c1 : Conversations) (uid : Nat)
    (h2 : List Message) (r : PyVal) (hck : r.containsKey ("error") = .ok false)
    (hex : extractContent r = .ok (.str (""))) :
    handleApiResponse c1 uid h2 r
      = { convs := c1, reqMessages := some h2,
          replies := [EMPTY_REPLY_MSG], exn := Option.none } := by
  unfold handleApiResponse
  rw [hck, hex]
  rfl

lemma handleApiResponse_extract_error (c1 : Conversations) (uid : Nat)
    (h2 : List Message) (r : PyVal) (e : PyErr)
    (hck : r.containsKey ("error") = .ok false)
    (hex : extractContent r = .error e) :
    handleApiResponse c1 uid h2 r
      = { convs := c1, reqMessages := some h2, replies := [], exn := some e } := by
  unfold handleApiResponse
  rw [hck, hex]

/-- C4 (counterexample): the claim "for every 2xx response whose body is a
malformed success envelope the outcome is a `Failure{kind=EmptyOrMalformed}`
surfaced distinctly from `RequestError`" fails at the malformed envelope
`{"choices": []}`: the handler raises `IndexError`, sends no reply of its
own, and the user instead receives the generic apology from the outermost
error handler. -/
theorem claim_C4_counterexample :
    (handle_text (some ("k")) (HttpOutcome.success (.dict [(("choices"), .list [])]))
        noConvs 8 ("q")).exn = some PyErr.indexError
    ∧ (handle_text (some ("k")) (HttpOutcome.success (.dict [(("choices"), .list [])]))
        noConvs 8 ("q")).replies = []
    ∧ (runWithErrorHandler (handle_text (some ("k"))
        (HttpOutcome.success (.dict [(("choices"), .list [])])) noConvs 8 ("q"))).replies
      = [GENERIC_ERROR_MSG]
    ∧ GENERIC_ERROR_MSG ≠ EMPTY_REPLY_MSG :=
  ⟨rfl, rfl, rfl, by decide⟩

/-- C4 (amended): for a 2xx response whose body is a dict without the
in-band `error` key and with expected fields missing at a level the
extraction chain defaults (no `choices` key, or a first choice that is a
dict without `message`, or a `message` dict without `content`), the event
replies with exactly the "try rephrasing" message — an outcome distinct
from every `RequestError` reply — and appends nothing; a `choices` key bound
to an empty list instead raises `IndexError` (see the counterexample), so
the classification happens in the router via the empty-content default, not
in `call_f5ai_api` itself, and does not cover all malformed envelopes. -/
theorem malformed_envelope_rephrase_reply (apiKey : Option String)
    (es : List (String × PyVal)) (c : Conversations) (uid : Nat) (t : String)
    (hk : keyConfigured apiKey = true)
    (he : lookup? es ("error") = Option.none)
    (hm : missingFieldsEnvelope es) :
    (handle_text apiKey (HttpOutcome.success (.dict es)) c uid t).replies
        = [EMPTY_REPLY_MSG]
    ∧ (handle_text apiKey (HttpOutcome.success (.dict es)) c uid t).convs uid
        = some (appendUserTrimmed ((c uid).getD [systemMessage]) t)
    ∧ (handle_text apiKey (HttpOutcome.success (.dict es)) c uid t).exn = Option.none
    ∧ (∀ d, EMPTY_REPLY_MSG ≠ ("Ошибка: ") ++ d) := by
  have hk' : ¬ (keyConfigured apiKey = false) := by simp [hk]
  have hck : PyVal.containsKey (.dict es) ("error") = .ok false := by
    simp [PyVal.containsKey, he]
  have hrec := handleApiResponse_no_error_empty
    (updateConv c uid (appendUserTrimmed ((c uid).getD [systemMessage]) t)) uid
    (appendUserTrimmed ((c uid).getD [systemMessage]) t) (.dict es) hck
    (extractContent_missing_fields es hm)
  unfold handle_text
  rw [if_neg hk']
  unfold call_f5ai_api
  rw [if_neg hk']
  rw [hrec]
  exact ⟨rfl, updateConv_self c uid _, rfl,
    fun d => string_ne_append EMPTY_REPLY_MSG ("Ошибка: ") d 1 (by decide) (by decide)⟩

/-- C4 (witness): the amended theorem evaluated on the concrete malformed
envelope `{"id": 1}` (no `choices` key). -/
theorem malformed_envelope_rephrase_reply_witness :
    keyConfigured (some ("k")) = true
    ∧ lookup? [(("id"), PyVal.int 1)] ("error") = Option.none
    ∧ missingFieldsEnvelope [(("id"), PyVal.int 1)]
    ∧ ((handle_text (some ("k")) (HttpOutcome.success (.dict [(("id"), PyVal.int 1)]))
          noConvs 9 ("hi")).replies = [EMPTY_REPLY_MSG]
      ∧ (handle_text (some ("k")) (HttpOutcome.success (.dict [(("id"), PyVal.int 1)]))
          noConvs 9 ("hi")).convs 9
        = some (appendUserTrimmed ((noConvs 9).getD [systemMessage]) ("hi"))
      ∧ (handle_text (some ("k")) (HttpOutcome.success (.dict [(("id"), PyVal.int 1)]))
          noConvs 9 ("hi")).exn = Option.none
      ∧ (∀ d, EMPTY_REPLY_MSG ≠ ("Ошибка: ") ++ d)) :=
  ⟨rfl, rfl, Or.inl rfl,
    malformed_envelope_rephrase_reply (some ("k")) [(("id"), PyVal.int 1)] noConvs 9 ("hi")
      rfl rfl (Or.inl rfl)⟩

lemma extractContent_empty_choices (es : List (String × PyVal))
    (hch : lookup? es ("choices") = some (.list [])) :
    extractContent (.dict es) = .error PyErr.indexError := by
  simp [extractContent, PyVal.get, PyVal.index, hch]

/-- C10: a 2xx JSON-object response binding `choices` to an empty list (and
not carrying the client's in-band `error` key, which would divert the event
into the error branch before extraction) makes the content extraction raise
`IndexError`: the handler sends no reply of its own — neither the rephrase
reply nor any typed failure reply — and the event is resolved only by the
outermost generic error handler's apology. -/
theorem empty_choices_raises_index_error (apiKey : Option String)
    (es : List (String × PyVal)) (c : Conversations) (uid : Nat) (t : String)
    (hk : keyConfigured apiKey = true)
    (he : lookup? es ("error") = Option.none)
    (hch : lookup? es ("choices") = some (.list [])) :
    (handle_text apiKey (HttpOutcome.success (.dict es)) c uid t).exn
        = some PyErr.indexError
    ∧ (handle_text apiKey (HttpOutcome.success (.dict es)) c uid t).replies = []
    ∧ (runWithErrorHandler (handle_text apiKey (HttpOutcome.success (.dict es)) c uid t)).replies
        = [GENERIC_ERROR_MSG]
    ∧ GENERIC_ERROR_MSG ≠ EMPTY_REPLY_MSG
    ∧ (∀ d, GENERIC_ERROR_MSG ≠ ("Ошибка: ") ++ d)
    ∧ GENERIC_ERROR_MSG ≠ CONFIG_ERROR_MSG := by
  have hk' : ¬ (keyConfigured apiKey = false) := by simp [hk]
  have hck : PyVal.containsKey (.dict es) ("error") = .ok false := by
    simp [PyVal.containsKey, he]
  have hrec := handleApiResponse_extract_error
    (updateConv c uid (appendUserTrimmed ((c uid).getD [systemMessage]) t)) uid
    (appendUserTrimmed ((c uid).getD [systemMessage]) t) (.dict es) PyErr.indexError hck
    (extractContent_empty_choices es hch)
  unfold handle_text
  rw [if_neg hk']
  unfold call_f5ai_api
  rw [if_neg hk']
  rw [hrec]
  exact ⟨rfl, rfl, rfl, by decide,
    fun d => string_ne_append GENERIC_ERROR_MSG ("Ошибка: ") d 0 (by decide) (by decide),
    by decide⟩

/-- C10 (witness): the theorem evaluated on the concrete response body
`{"choices": []}`. -/
theorem empty_choices_raises_index_error_witness :
    keyConfigured (some ("k")) = true
    ∧ lookup? [(("choices"), PyVal.list [])] ("error") = Option.none
    ∧ lookup? [(("choices"), PyVal.list [])] ("choices") = some (.list [])
    ∧ ((handle_text (some ("k")) (HttpOutcome.success (.dict [(("choices"), PyVal.list [])]))
          noConvs 10 ("w")).exn = some PyErr.indexError
      ∧ (handle_text (some ("k")) (HttpOutcome.success (.dict [(("choices"), PyVal.list [])]))
          noConvs 10 ("w")).replies = []
      ∧ (runWithErrorHandler (handle_text (some ("k"))
          (HttpOutcome.success (.dict [(("choices"), PyVal.list [])])) noConvs 10 ("w"))).replies
        = [GENERIC_ERROR_MSG]
      ∧ GENERIC_ERROR_MSG ≠ EMPTY_REPLY_MSG
      ∧ (∀ d, GENERIC_ERROR_MSG ≠ ("Ошибка: ") ++ d)
      ∧ GENERIC_ERROR_MSG ≠ CONFIG_ERROR_MSG) :=
  ⟨rfl, rfl, rfl,
    empty_choices_raises_index_error (some ("k")) [(("choices"), PyVal.list [])] noConvs 10 ("w")
      rfl rfl rfl⟩

lemma handleApiResponse_reqMessages (c1 : Conversations) (uid : Nat)
    (h2 : List Message) (r : PyVal) :
    (handleApiResponse c1 uid h2 r).reqMessages = some h2 := by
  unfold handleApiResponse
  repeat' split
  all_goals rfl

lemma getLast?_appendUserTrimmed (h : List Message) (t : String) :
    (appendUserTrimmed h t).getLast? = some (mkUserMsg t) := by
  unfold appendUserTrimmed
  split
  · rename_i hgt
    have hM : MAX_CONVERSATION_HISTORY = 10 := rfl
    rw [hM] at hgt ⊢
    have hle : (h ++ [mkUserMsg t]).length - 10 ≤ h.length := by
      simp only [List.length_append, List.length_singleton] at hgt ⊢
      omega
    rw [List.drop_append_of_le_length hle, ← List.append_assoc, List.getLast?_concat]
  · exact List.getLast?_concat h

lemma mem_appendUserTrimmed_of_getLast? (l : List Message) (m : Message) (t2 : String)
    (hl : l.getLast? = some m) : m ∈ appendUserTrimmed l t2 := by
  have hmem : m ∈ l := by
    rw [List.getLast?_eq_getElem?] at hl
    exact List.getElem?_mem hl
  unfold appendUserTrimmed
  split
  · rename_i hgt
    have hM : MAX_CONVERSATION_HISTORY = 10 := rfl
    rw [hM] at hgt ⊢
    have hlen : l.length ≥ 11 := by
      simp only [List.length_append, List.length_singleton] at hgt
      omega
    have hle : (l ++ [mkUserMsg t2]).length - 10 ≤ l.length - 1 := by
      simp only [List.length_append, List.length_singleton]
      omega
    refine List.mem_append_right _ ?_
    have hidx : (l ++ [mkUserMsg t2])[l.length - 1]? = some m := by
      rw [List.getElem?_append_left (by omega)]
      rw [← List.getLast?_eq_getElem?]
      exact hl
    have hget : ((l ++ [mkUserMsg t2]).drop ((l ++ [mkUserMsg t2]).length - 10))[
        (l.length - 1) - ((l ++ [mkUserMsg t2]).length - 10)]? = some m := by
      rw [List.getElem?_drop]
      have harith : (l ++ [mkUserMsg t2]).length - 10
          + ((l.length - 1) - ((l ++ [mkUserMsg t2]).length - 10)) = l.length - 1 := by
        omega
      rw [harith]
      exact hidx
    exact List.getElem?_mem hget
  · exact List.mem_append_left _ hmem

/-- C9: when the upstream call fails (request or other exception) or
succeeds with empty content, the just-appended user message is not rolled
back: the stored history after the event is exactly the trimmed history
ending in that user message, and any subsequent text event from the same
user sends an upstream request whose message list still contains it. -/
theorem failed_turn_retained_for_next_request (apiKey : Option String)
    (outcome : HttpOutcome) (c : Conversations) (uid : Nat) (t : String) (d : String)
    (hk : keyConfigured apiKey = true)
    (ho : outcome = HttpOutcome.requestException d ∨ outcome = HttpOutcome.otherException d
      ∨ outcome = HttpOutcome.success (okEnvelope (""))) :
    (handle_text apiKey outcome c uid t).convs uid
        = some (appendUserTrimmed ((c uid).getD [systemMessage]) t)
    ∧ (appendUserTrimmed ((c uid).getD [systemMessage]) t).getLast? = some (mkUserMsg t)
    ∧ ∀ key2 out2 t2, keyConfigured key2 = true →
        (handle_text key2 out2 ((handle_text apiKey outcome c uid t).convs) uid t2).reqMessages
          = some (appendUserTrimmed (appendUserTrimmed ((c uid).getD [systemMessage]) t) t2)
        ∧ mkUserMsg t ∈ appendUserTrimmed (appendUserTrimmed ((c uid).getD [systemMessage]) t) t2 := by
  have hk' : ¬ (keyConfigured apiKey = false) := by simp [hk]
  have hconv : (handle_text apiKey outcome c uid t).convs uid
      = some (appendUserTrimmed ((c uid).getD [systemMessage]) t) := by
    rcases ho with h | h | h
    all_goals subst h
    all_goals unfold handle_text
    all_goals rw [if_neg hk']
    all_goals unfold call_f5ai_api
    all_goals rw [if_neg hk']
    all_goals exact updateConv_self c uid _
  refine ⟨hconv, getLast?_appendUserTrimmed _ _, ?_⟩
  intro key2 out2 t2 hk2
  have hk2' : ¬ (keyConfigured key2 = false) := by simp [hk2]
  refine ⟨?_, mem_appendUserTrimmed_of_getLast? _ _ _ (getLast?_appendUserTrimmed _ _)⟩
  set X := (handle_text apiKey outcome c uid t).convs with hXdef
  unfold handle_text
  rw [if_neg hk2']
  rw [handleApiResponse_reqMessages]
  rw [hconv]
  rfl

/-- C9 (witness): the theorem evaluated on a concrete timeout followed by a
second text message from the same user. -/
theorem failed_turn_retained_for_next_request_witness :
    keyConfigured (some ("k")) = true
    ∧ ((handle_text (some ("k")) (HttpOutcome.requestException ("timeout")) noConvs 11 ("first")).convs 11
        = some (appendUserTrimmed ((noConvs 11).getD [systemMessage]) ("first"))
      ∧ (appendUserTrimmed ((noConvs 11).getD [systemMessage]) ("first")).getLast?
        = some (mkUserMsg ("first"))
      ∧ ((handle_text (some ("k")) (HttpOutcome.success (okEnvelope ("fine")))
            ((handle_text (some ("k")) (HttpOutcome.requestException ("timeout")) noConvs 11 ("first")).convs)
            11 ("second")).reqMessages
          = some (appendUserTrimmed
              (appendUserTrimmed ((noConvs 11).getD [systemMessage]) ("first")) ("second"))
        ∧ mkUserMsg ("first")
          ∈ appendUserTrimmed
              (appendUserTrimmed ((noConvs 11).getD [systemMessage]) ("first")) ("second"))) :=
  ⟨rfl, (failed_turn_retained_for_next_request (some ("k"))
      (HttpOutcome.requestException ("timeout")) noConvs 11 ("first") ("timeout") rfl
      (Or.inl rfl)).1,
    (failed_turn_retained_for_next_request (some ("k"))
      (HttpOutcome.requestException ("timeout")) noConvs 11 ("first") ("timeout") rfl
      (Or.inl rfl)).2.1,
    (failed_turn_retained_for_next_request (some ("k"))
      (HttpOutcome.requestException ("timeout")) noConvs 11 ("first") ("timeout") rfl
      (Or.inl rfl)).2.2 (some ("k")) (HttpOutcome.success (okEnvelope ("fine"))) ("second") rfl⟩

end KanataBot
